import Mathlib

/-!
Verification of `img-time.py`, a script that fixes the modification time of
image files from timestamps embedded in their names or EXIF metadata.

The script is shallowly embedded: every function of the source is mirrored
by a Lean definition of the same name, Python floats become `ℚ`, the
filesystem and the local-timezone conversion (`time.mktime`) are parameters,
and the observable behaviour of a run (log lines, stdout prints, `os.utime`
calls) is a list of `Effect`s.  Exceptions that the source does not catch are
modelled with `Except PyErr`.
-/

/-- Severity levels of the `logging` calls that occur in the script. -/
inductive LogLevel where
  | info
  | error
deriving DecidableEq, Repr

/-- Observable effects of a run: log lines on stderr, prints on stdout, and
`os.utime` calls (path, atime, mtime). -/
inductive Effect where
  | log (lv : LogLevel) (msg : String)
  | print (msg : String)
  | utime (path : String) (atime : ℚ) (mtime : ℚ)
deriving DecidableEq, Repr

/-- Exceptions the script can raise and does not catch. -/
inductive PyErr where
  | valueError
  | osError
deriving DecidableEq, Repr

deriving instance DecidableEq for Except

/-- Python 2 `round`: to the nearest integer, ties away from zero
(`round` returns a float, but its value is integral).  `Rat.floor` is used
rather than `⌊⌋` so that the definition evaluates by kernel reduction. -/
def pyRound (q : ℚ) : ℤ :=
  if q < 0 then -(Rat.floor (-q + 1/2)) else Rat.floor (q + 1/2)

/-- `MIN_DATE = 788936400  # Jan 1, 1995` (line 25). -/
def MIN_DATE : ℚ := 788936400

/-- Line 115: `time_diff = int(round(abs(title_time - mod_time)))`. -/
def time_diff (title_time mod_time : ℚ) : ℤ :=
  pyRound |title_time - mod_time|

/-- Line 116: `tz_diff = abs(time_diff - round(time_diff/60/60)*60*60)`
(`from __future__ import division`, so `/` is true division). -/
def tz_diff (n : ℤ) : ℤ :=
  |n - pyRound ((n : ℚ) / 60 / 60) * 60 * 60|

/-- Line 117: `if time_diff > args.max_diff and tz_diff >= args.max_tz_diff`. -/
def correctionWarranted (max_diff max_tz_diff : ℤ) (title_time mod_time : ℚ) : Bool :=
  max_diff < time_diff title_time mod_time
    && max_tz_diff ≤ tz_diff (time_diff title_time mod_time)

/-! ### Filename patterns

Each entry of `NAME_FORMATS` (lines 27–36) is an anchored regular expression
with six numeric capture groups; each is embedded as a deterministic parser
over the characters of the name (all groups are fixed-width and the
alternations are disjoint, so the parsers implement exactly the regexes). -/

/-- The six captured numeric fields of a `NAME_FORMATS` match, as the values
of `int(match.group(i))`. -/
structure Groups where
  year : ℕ
  month : ℕ
  day : ℕ
  hour : ℕ
  minute : ℕ
  second : ℕ
deriving DecidableEq, Repr

/-- Consume a literal run of characters. -/
def lit : List Char → List Char → Option (List Char)
  | [], cs => some cs
  | p :: ps, c :: cs => if c = p then lit ps cs else none
  | _ :: _, [] => none

def digitsAux : ℕ → ℕ → List Char → Option (ℕ × List Char)
  | 0, acc, cs => some (acc, cs)
  | n + 1, acc, c :: cs =>
      if c.isDigit then digitsAux n (acc * 10 + (c.toNat - 48)) cs else none
  | _ + 1, _, [] => none

/-- Consume exactly `n` decimal digits, returning their value. -/
def nDigits (n : ℕ) (cs : List Char) : Option (ℕ × List Char) :=
  digitsAux n 0 cs

/-- A group `(20\d{2})`: four digits whose first two are `20`. -/
def year20 (cs : List Char) : Option (ℕ × List Char) := do
  let (y, cs) ← nDigits 4 cs
  if 2000 ≤ y ∧ y < 2100 then some (y, cs) else none

/-- `^(?:IMG|VID|PANO)_(20\d{2})(\d{2})(\d{2})_(\d{2})(\d{2})(\d{2})\.(?:jpg|mp4)$`
(Samsung Galaxy S2 camera). -/
def format1 (cs : List Char) : Option Groups := do
  let cs ← lit "IMG_".data cs <|> lit "VID_".data cs <|> lit "PANO_".data cs
  let (y, cs) ← year20 cs
  let (mo, cs) ← nDigits 2 cs
  let (d, cs) ← nDigits 2 cs
  let cs ← lit "_".data cs
  let (h, cs) ← nDigits 2 cs
  let (mi, cs) ← nDigits 2 cs
  let (s, cs) ← nDigits 2 cs
  let cs ← lit ".".data cs
  let cs ← lit "jpg".data cs <|> lit "mp4".data cs
  if cs.isEmpty then some ⟨y, mo, d, h, mi, s⟩ else none

/-- `^Screenshot from (20\d{2})-(\d{2})-(\d{2}) (\d{2}):(\d{2}):(\d{2})\.(?:jpg|png)$`
(Ubuntu screenshots). -/
def format2 (cs : List Char) : Option Groups := do
  let cs ← lit "Screenshot from ".data cs
  let (y, cs) ← year20 cs
  let cs ← lit "-".data cs
  let (mo, cs) ← nDigits 2 cs
  let cs ← lit "-".data cs
  let (d, cs) ← nDigits 2 cs
  let cs ← lit " ".data cs
  let (h, cs) ← nDigits 2 cs
  let cs ← lit ":".data cs
  let (mi, cs) ← nDigits 2 cs
  let cs ← lit ":".data cs
  let (s, cs) ← nDigits 2 cs
  let cs ← lit ".".data cs
  let cs ← lit "jpg".data cs <|> lit "png".data cs
  if cs.isEmpty then some ⟨y, mo, d, h, mi, s⟩ else none

/-- `^(20\d{2})-(\d{2})-(\d{2})-(\d{2})(\d{2})(\d{2})\.jpg$` (cheese webcam). -/
def format3 (cs : List Char) : Option Groups := do
  let (y, cs) ← year20 cs
  let cs ← lit "-".data cs
  let (mo, cs) ← nDigits 2 cs
  let cs ← lit "-".data cs
  let (d, cs) ← nDigits 2 cs
  let cs ← lit "-".data cs
  let (h, cs) ← nDigits 2 cs
  let (mi, cs) ← nDigits 2 cs
  let (s, cs) ← nDigits 2 cs
  let cs ← lit ".jpg".data cs
  if cs.isEmpty then some ⟨y, mo, d, h, mi, s⟩ else none

/-- `^(20\d{2})(\d{2})(\d{2})_(\d{2})(\d{2})(\d{2})\.(?:jpg|mp4)$`. -/
def format4 (cs : List Char) : Option Groups := do
  let (y, cs) ← year20 cs
  let (mo, cs) ← nDigits 2 cs
  let (d, cs) ← nDigits 2 cs
  let cs ← lit "_".data cs
  let (h, cs) ← nDigits 2 cs
  let (mi, cs) ← nDigits 2 cs
  let (s, cs) ← nDigits 2 cs
  let cs ← lit ".".data cs
  let cs ← lit "jpg".data cs <|> lit "mp4".data cs
  if cs.isEmpty then some ⟨y, mo, d, h, mi, s⟩ else none

/-- `^C360_(20\d{2})-(\d{2})-(\d{2})-(\d{2})-(\d{2})-(\d{2})-\d{3}\.jpg$`. -/
def format5 (cs : List Char) : Option Groups := do
  let cs ← lit "C360_".data cs
  let (y, cs) ← year20 cs
  let cs ← lit "-".data cs
  let (mo, cs) ← nDigits 2 cs
  let cs ← lit "-".data cs
  let (d, cs) ← nDigits 2 cs
  let cs ← lit "-".data cs
  let (h, cs) ← nDigits 2 cs
  let cs ← lit "-".data cs
  let (mi, cs) ← nDigits 2 cs
  let cs ← lit "-".data cs
  let (s, cs) ← nDigits 2 cs
  let cs ← lit "-".data cs
  let (_, cs) ← nDigits 3 cs
  let cs ← lit ".jpg".data cs
  if cs.isEmpty then some ⟨y, mo, d, h, mi, s⟩ else none

/-- `NAME_FORMATS` (lines 27–36), in source order. -/
def NAME_FORMATS : List (List Char → Option Groups) :=
  [format1, format2, format3, format4, format5]

/-- `^\d{5}\.MTS$`. -/
def ignore1 (cs : List Char) : Option Unit := do
  let (_, cs) ← nDigits 5 cs
  let cs ← lit ".MTS".data cs
  if cs.isEmpty then some () else none

/-- `^HPIM\d{4}\.jpg$`. -/
def ignore2 (cs : List Char) : Option Unit := do
  let cs ← lit "HPIM".data cs
  let (_, cs) ← nDigits 4 cs
  let cs ← lit ".jpg".data cs
  if cs.isEmpty then some () else none

/-- `^P\d{6,7}\.(?:JPG|MOV)$` (the greedy `\d{6,7}` followed by `\.` takes a
seventh digit exactly when one is present). -/
def ignore3 (cs : List Char) : Option Unit := do
  let cs ← lit "P".data cs
  let (_, cs) ← nDigits 6 cs
  let cs := match cs with
    | c :: rest => if c.isDigit then rest else c :: rest
    | [] => []
  let cs ← lit ".".data cs
  let cs ← lit "JPG".data cs <|> lit "MOV".data cs
  if cs.isEmpty then some () else none

/-- `IGNORE_FORMATS` (lines 39–43), in source order. -/
def IGNORE_FORMATS : List (List Char → Option Unit) :=
  [ignore1, ignore2, ignore3]

/-- Python `re.search` with a pattern anchored as `^...$`: the whole string
must match, where `$` also matches just before a single trailing newline. -/
def pySearchAnchored {α : Type} (core : List Char → Option α) (s : String) : Option α :=
  match core s.data with
  | some a => some a
  | none =>
    if s.data.getLast? = some '\n' then core s.data.dropLast else none

/-- First match of a list of patterns, tried in order (the `for`/`break` loop
of lines 85–95). -/
def firstMatch {α : Type} : List (List Char → Option α) → String → Option α
  | [], _ => none
  | f :: fs, s =>
    match pySearchAnchored f s with
    | some a => some a
    | none => firstMatch fs s

/-- The captured groups of the first `NAME_FORMATS` entry matching the bare
filename, if any. -/
def titleGroups (image_name : String) : Option Groups :=
  firstMatch NAME_FORMATS image_name

/-- Whether any `IGNORE_FORMATS` entry matches (lines 104–107). -/
def ignoreRecognized (image_name : String) : Bool :=
  IGNORE_FORMATS.any fun f => (pySearchAnchored f image_name).isSome

/-- `os.path.split(path)[1]` (line 82): the part after the last slash. -/
def basename (s : String) : String :=
  ⟨(s.data.reverse.takeWhile fun c => c ≠ '/').reverse⟩

/-! ### Calendar validation (`datetime.datetime`) -/

/-- A Python `datetime.datetime` value (time fields only). -/
structure DateTime where
  year : ℤ
  month : ℤ
  day : ℤ
  hour : ℤ
  minute : ℤ
  second : ℤ
deriving DecidableEq, Repr

def isLeap (y : ℤ) : Bool :=
  (y % 4 == 0 && y % 100 != 0) || y % 400 == 0

def daysInMonth (y m : ℤ) : ℤ :=
  if m = 2 then (if isLeap y then 29 else 28)
  else if m = 4 ∨ m = 6 ∨ m = 9 ∨ m = 11 then 30
  else 31

/-- The `datetime.datetime(year=…, …, second=…)` constructor: validates every
field, raising `ValueError` (modelled as `Except.error`) out of range. -/
def datetimeNew (y mo d h mi s : ℤ) : Except Unit DateTime :=
  if 1 ≤ y ∧ y ≤ 9999 ∧ 1 ≤ mo ∧ mo ≤ 12 ∧ 1 ≤ d ∧ d ≤ daysInMonth y mo
      ∧ 0 ≤ h ∧ h ≤ 23 ∧ 0 ≤ mi ∧ mi ≤ 59 ∧ 0 ≤ s ∧ s ≤ 59
  then .ok ⟨y, mo, d, h, mi, s⟩
  else .error ()

/-- Lines 84–95 of `main`: try each `NAME_FORMATS` entry in order on the bare
filename; on the first match build a `datetime` from the captured groups —
`datetime.datetime` raises `ValueError` on non-calendar fields, and `main`
does not catch it — and convert to epoch seconds with `time.mktime`, i.e. the
local-timezone conversion, passed as parameter `mktime`. -/
def filenameTime (mktime : DateTime → ℚ) (image_name : String) :
    Except PyErr (Option ℚ) :=
  match titleGroups image_name with
  | none => .ok none
  | some g =>
    match datetimeNew g.year g.month g.day g.hour g.minute g.second with
    | .error _ => .error .valueError
    | .ok dt => .ok (some (mktime dt))

/-! ### EXIF metadata parsing -/

def pySpace (c : Char) : Bool :=
  c = ' ' || c = '\t' || c = '\n' || c = '\r' || c = '\x0b' || c = '\x0c'

def pyIntDigits (cs : List Char) : Except Unit ℕ :=
  if cs ≠ [] ∧ cs.all Char.isDigit then
    .ok (cs.foldl (fun a c => a * 10 + (c.toNat - 48)) 0)
  else .error ()

/-- Python `int(str)`: optional surrounding whitespace, an optional sign and
at least one decimal digit; anything else raises `ValueError`. -/
def pyInt (s : String) : Except Unit ℤ :=
  let cs := ((s.data.dropWhile pySpace).reverse.dropWhile pySpace).reverse
  match cs with
  | '+' :: rest => (pyIntDigits rest).map fun n => (n : ℤ)
  | '-' :: rest => (pyIntDigits rest).map fun n => -(n : ℤ)
  | rest => (pyIntDigits rest).map fun n => (n : ℤ)

/-- Python slice `s[a:b]` for `0 ≤ a ≤ b`. -/
def pySlice (s : String) (a b : ℕ) : String :=
  ⟨(s.data.drop a).take (b - a)⟩

/-- The `try` block of `parse_time_str` (lines 152–158): parse the six
fixed-width components with `int` and validate them with
`datetime.datetime`; a `ValueError` from either is caught by the caller. -/
def exifFields (time_str : String) : Except Unit DateTime := do
  let y ← pyInt (pySlice time_str 0 4)
  let mo ← pyInt (pySlice time_str 5 7)
  let d ← pyInt (pySlice time_str 8 10)
  let h ← pyInt (pySlice time_str 11 13)
  let mi ← pyInt (pySlice time_str 14 16)
  let s ← pyInt (pySlice time_str 17 19)
  datetimeNew y mo d h mi s

/-- `parse_time_str` (lines 147–162): a value whose length is not 19, or a
component failing validation, yields `None` plus an info-level log line;
success converts via `time.mktime`. -/
def parse_time_str (mktime : DateTime → ℚ) (time_str : String) :
    Option ℚ × List Effect :=
  if time_str.length ≠ 19 then
    (none,
      [.log .info ("Warning: Invalid EXIF time string length \"" ++ time_str ++ "\".")])
  else
    match exifFields time_str with
    | .error _ =>
      (none, [.log .info ("Warning: Invalid EXIF time string \"" ++ time_str ++ "\".")])
    | .ok dt => (some (mktime dt), [])

/-- `get_exif_time` (lines 134–144): look up `EXIF DateTimeOriginal` via the
filesystem's `exifTag` map; an absent tag logs at info severity. -/
def get_exif_time (mktime : DateTime → ℚ) (exifTag : String → Option String)
    (image_path : String) : Option ℚ × List Effect :=
  match exifTag image_path with
  | some v => parse_time_str mktime v
  | none =>
    (none,
      [.log .info
        ("Warning: did not find EXIF tag \"EXIF DateTimeOriginal\" in file \""
          ++ image_path ++ "\"")])

/-! ### The per-file loop of `main` -/

/-- The run configuration: the `--no-edit` flag, `--max-diff` and
`--max-tz-diff` (argparse `type=int`), and whether the optional `exifread`
module was importable. -/
structure Config where
  no_edit : Bool
  max_diff : ℤ
  max_tz_diff : ℤ
  exifread : Bool

/-- Python truthiness of the `title_time` variable: `None` and `0.0` are
falsy. -/
def truthy : Option ℚ → Bool
  | none => false
  | some q => decide (q ≠ 0)

/-- `valid_timestamp` (lines 125–131): the plausibility window
`MIN_DATE ≤ t ≤ MAX_DATE`; on failure an error-severity log line naming the
source.  `fromtimestamp` renders `str(datetime.datetime.fromtimestamp(·))`. -/
def valid_timestamp (fromtimestamp : ℚ → String) (maxDate : ℚ) (timestamp : ℚ)
    (description : String) : Bool × List Effect :=
  if timestamp < MIN_DATE ∨ timestamp > maxDate then
    (false,
      [.log .error
        ("Warning: Invalid " ++ description ++ ": " ++ fromtimestamp timestamp)])
  else (true, [])

def pad2 (n : ℕ) : String :=
  if n < 10 then "0" ++ toString n else toString n

/-- `str(datetime.timedelta(seconds=n))` for the non-negative whole seconds
the script passes (line 119). -/
def timedeltaStr (n : ℤ) : String :=
  let s := n.toNat
  let days := s / 86400
  let rem := s % 86400
  let core :=
    toString (rem / 3600) ++ ":" ++ pad2 (rem % 3600 / 60) ++ ":" ++ pad2 (rem % 60)
  if days = 0 then core
  else if days = 1 then "1 day, " ++ core
  else toString days ++ " days, " ++ core

/-- The stdout report of lines 118–119:
`'{}: discrepancy of {} ({})'.format(image_name, timedelta, time_diff)`. -/
def discrepancyMsg (image_name : String) (n : ℤ) : String :=
  image_name ++ ": discrepancy of " ++ timedeltaStr n ++ " (" ++ toString n ++ ")"

/-- Outcome of the candidate-acquisition phase of the per-file loop: either
the file is skipped (`continue`), or processing proceeds with a `title_time`
that passed validation. -/
inductive TitleStep where
  | done (effs : List Effect)
  | go (title_time : ℚ) (effs : List Effect)
deriving DecidableEq, Repr

/-- Lines 84–110 of `main`: acquire `title_time` from the filename, else —
only when the filename produced nothing truthy and `exifread` is available —
from EXIF metadata, validating whichever candidate is used; with no usable
candidate, consult the ignore list and possibly log the unrecognized-name
error. -/
def titlePhase (mktime : DateTime → ℚ) (fromtimestamp : ℚ → String) (maxDate : ℚ)
    (exifread : Bool) (exifTag : String → Option String)
    (image_path image_name : String) : Except PyErr TitleStep :=
  match filenameTime mktime image_name with
  | .error e => .error e
  | .ok t0 =>
    if truthy t0 then
      let t := t0.getD 0
      let (v, e1) := valid_timestamp fromtimestamp maxDate t "filename timestamp"
      if v then .ok (.go t e1) else .ok (.done e1)
    else
      let (t1, e1) :=
        if exifread then get_exif_time mktime exifTag image_path else (t0, [])
      if truthy t1 then
        let t := t1.getD 0
        let (v, e2) := valid_timestamp fromtimestamp maxDate t "EXIF timestamp"
        if v then .ok (.go t (e1 ++ e2)) else .ok (.done (e1 ++ e2))
      else
        if ignoreRecognized image_name then .ok (.done e1)
        else
          .ok (.done (e1 ++
            [.log .error ("Unrecognized name format & no EXIF: " ++ image_name)]))

/-- Lines 112–122 of `main`: read the modification time — the source passes
`image_name`, the bare filename, to `os.path.getmtime` (line 112), so a name
that does not resolve raises `OSError` — validate it, evaluate the
discrepancy, report it on stdout and, unless `--no-edit`, correct the file
at `image_path` with `os.utime` (line 122). -/
def comparePhase (fromtimestamp : ℚ → String) (maxDate : ℚ) (cfg : Config)
    (getmtime : String → Option ℚ) (image_path image_name : String)
    (title_time : ℚ) : Except PyErr (List Effect) :=
  match getmtime image_name with
  | none => .error .osError
  | some mod_time =>
    let (v, e1) := valid_timestamp fromtimestamp maxDate mod_time "date modified"
    if !v then .ok e1
    else if correctionWarranted cfg.max_diff cfg.max_tz_diff title_time mod_time then
      let p := Effect.print (discrepancyMsg image_name (time_diff title_time mod_time))
      if cfg.no_edit then .ok (e1 ++ [p])
      else .ok (e1 ++ [p, .utime image_path title_time title_time])
    else .ok e1

/-- One iteration of the per-file loop (lines 79–122). -/
def processFile (mktime : DateTime → ℚ) (fromtimestamp : ℚ → String) (maxDate : ℚ)
    (cfg : Config) (isfile : String → Bool) (getmtime : String → Option ℚ)
    (exifTag : String → Option String) (image_path : String) :
    Except PyErr (List Effect) :=
  if isfile image_path then
    let image_name := basename image_path
    match titlePhase mktime fromtimestamp maxDate cfg.exifread exifTag
        image_path image_name with
    | .error e => .error e
    | .ok (.done effs) => .ok effs
    | .ok (.go t effs) =>
      match comparePhase fromtimestamp maxDate cfg getmtime image_path image_name t with
      | .error e => .error e
      | .ok effs2 => .ok (effs ++ effs2)
  else .ok []

/-- The loop over `args.images`: an uncaught exception aborts the run, so no
later file is processed. -/
def processAll (mktime : DateTime → ℚ) (fromtimestamp : ℚ → String) (maxDate : ℚ)
    (cfg : Config) (isfile : String → Bool) (getmtime : String → Option ℚ)
    (exifTag : String → Option String) : List String → Except PyErr (List Effect)
  | [] => .ok []
  | p :: ps =>
    match processFile mktime fromtimestamp maxDate cfg isfile getmtime exifTag p with
    | .error e => .error e
    | .ok effs =>
      match processAll mktime fromtimestamp maxDate cfg isfile getmtime exifTag ps with
      | .error e => .error e
      | .ok rest => .ok (effs ++ rest)

/-- `main`: `MAX_DATE = time.time() + 60*60*24*7` (line 26) is computed once
from the run-start clock `now`, and that single bound is used for every
file. -/
def runMain (mktime : DateTime → ℚ) (fromtimestamp : ℚ → String) (cfg : Config)
    (isfile : String → Bool) (getmtime : String → Option ℚ)
    (exifTag : String → Option String) (now : ℚ) (images : List String) :
    Except PyErr (List Effect) :=
  processAll mktime fromtimestamp (now + 60 * 60 * 24 * 7) cfg isfile getmtime exifTag
    images

/-- The effects carried by a `TitleStep`. -/
def TitleStep.effs : TitleStep → List Effect
  | .done e => e
  | .go _ e => e

/-- Effect lists that consist of log lines only: no stdout report and no
`os.utime` call. -/
def onlyLogs (l : List Effect) : Prop :=
  ∀ e ∈ l, ∃ lv msg, e = Effect.log lv msg

/-! ### Concrete fixtures for instance checks -/

/-- A concrete local-timezone conversion: every datetime maps to epoch
second 800000000 (inside the plausibility window). -/
def mkFix : DateTime → ℚ := fun _ => 800000000

/-- A local-timezone conversion producing an implausibly small epoch time. -/
def mkBad : DateTime → ℚ := fun _ => 5

/-- A concrete `str(datetime.datetime.fromtimestamp(·))` renderer. -/
def ftFix : ℚ → String := fun _ => "(time)"

def cfgFix (no_edit exifread : Bool) : Config := ⟨no_edit, 60, 60, exifread⟩

def isfileAll : String → Bool := fun _ => true

def mtimeAll : String → Option ℚ := fun _ => some 900000000

def exifNone : String → Option String := fun _ => none

def exifSome : String → Option String := fun _ => some "2011:01:01 00:00:00"

/-- A filesystem in which only the bare name, not the supplied path, has a
modification time (the situation of a run started outside the image's
directory). -/
def mtimeBaseOnly : String → Option ℚ := fun s =>
  if s = "IMG_20140310_153045.jpg" then some 900000000 else none

/-- A filesystem in which the supplied path has a modification time equal to
the filename time, and the bare name resolves to nothing. -/
def mtimePathOnly : String → Option ℚ := fun s =>
  if s = "photos/IMG_20140310_153045.jpg" then some 800000000 else none

/-! Arithmetic facts about the evaluator. -/

lemma ratFloor_eq_floor (q : ℚ) : Rat.floor q = ⌊q⌋ :=
  (Rat.floor_def' q).trans Rat.floor_def.symm

lemma pyRound_nonneg_eq (q : ℚ) (h : 0 ≤ q) : pyRound q = ⌊q + 1/2⌋ := by
  unfold pyRound
  rw [if_neg (by linarith), ratFloor_eq_floor]

lemma pyRound_div3600 (n : ℕ) :
    pyRound ((n : ℚ) / 60 / 60) = ((n + 1800) / 3600 : ℕ) := by
  have h0 : (0 : ℚ) ≤ (n : ℚ) / 60 / 60 := by positivity
  rw [pyRound_nonneg_eq _ h0]
  set k : ℕ := (n + 1800) / 3600 with hk
  have h1 : 3600 * k ≤ n + 1800 := by omega
  have h2 : n + 1800 < 3600 * k + 3600 := by omega
  have h1q : (3600 : ℚ) * k ≤ (n : ℚ) + 1800 := by exact_mod_cast h1
  have h2q : ((n : ℚ)) + 1800 < 3600 * k + 3600 := by exact_mod_cast h2
  rw [Int.floor_eq_iff]
  constructor
  · push_cast
    linarith
  · push_cast
    linarith

lemma time_diff_nonneg (t m : ℚ) : 0 ≤ time_diff t m := by
  unfold time_diff
  rw [pyRound_nonneg_eq _ (abs_nonneg _)]
  exact Int.floor_nonneg.mpr (by linarith [abs_nonneg (t - m)])

lemma tz_diff_natCast (n : ℕ) :
    tz_diff (n : ℤ) = |(n : ℤ) - (((n + 1800) / 3600 : ℕ) : ℤ) * 3600| := by
  unfold tz_diff
  rw [show (((n : ℤ) : ℚ)) = ((n : ℕ) : ℚ) by push_cast; ring]
  rw [pyRound_div3600 n]
  ring_nf

lemma tz_diff_le_1800_of_natCast (n : ℕ) : tz_diff (n : ℤ) ≤ 1800 := by
  rw [tz_diff_natCast]
  rw [abs_le]
  omega

lemma tz_diff_le_1800 (n : ℤ) (h : 0 ≤ n) : tz_diff n ≤ 1800 := by
  obtain ⟨k, rfl⟩ := Int.eq_ofNat_of_zero_le h
  exact tz_diff_le_1800_of_natCast k

unseal Rat.add Rat.sub Rat.mul Rat.inv in
/-- **C1.**  The Discrepancy Evaluator warrants a correction iff both
`time_diff > max_diff` and `tz_diff ≥ max_tz_diff`; `tz_diff` is the absolute
residual after snapping `time_diff` to the nearest whole hour; a difference of
exactly 3600 s gives no correction under `max_tz_diff = 60`, 3661 s under the
defaults gives a correction, and 30 s is under the default `max_diff = 60`. -/
theorem discrepancy_decision_iff :
    (∀ (max_diff max_tz_diff : ℤ) (t m : ℚ),
      correctionWarranted max_diff max_tz_diff t m = true ↔
        (max_diff < time_diff t m ∧ max_tz_diff ≤ tz_diff (time_diff t m)))
    ∧ (∀ n : ℕ, tz_diff (n : ℤ) = |(n : ℤ) - (((n + 1800) / 3600 : ℕ) : ℤ) * 3600|)
    ∧ correctionWarranted 60 60 (MIN_DATE + 3600) MIN_DATE = false
    ∧ correctionWarranted 60 60 (MIN_DATE + 3661) MIN_DATE = true
    ∧ correctionWarranted 60 60 (MIN_DATE + 30) MIN_DATE = false := by
  refine ⟨?_, tz_diff_natCast, by decide, by decide, by decide⟩
  intro a b t m
  unfold correctionWarranted
  simp [decide_eq_true_eq]

/-- **C10.**  `tz_diff` of any evaluator-produced difference is at most
1800 s, so with `max_tz_diff > 1800` no correction is ever warranted. -/
theorem tz_slack_bounded :
    (∀ t m : ℚ, tz_diff (time_diff t m) ≤ 1800)
    ∧ (∀ (max_diff max_tz_diff : ℤ) (t m : ℚ), 1800 < max_tz_diff →
        correctionWarranted max_diff max_tz_diff t m = false) := by
  constructor
  · intro t m
    exact tz_diff_le_1800 _ (time_diff_nonneg t m)
  · intro a b t m hb
    unfold correctionWarranted
    simp only [Bool.and_eq_false_iff, decide_eq_false_iff_not, not_le, not_lt]
    right
    calc tz_diff (time_diff t m) ≤ 1800 := tz_diff_le_1800 _ (time_diff_nonneg t m)
      _ < b := hb

unseal Rat.add Rat.sub Rat.mul Rat.inv in
/-- Witness for `tz_slack_bounded` at a concrete configuration. -/
theorem tz_slack_bounded_witness :
    (1800 : ℤ) < 1801
    ∧ correctionWarranted 60 1801 (MIN_DATE + 3661) MIN_DATE = false :=
  ⟨by norm_num, tz_slack_bounded.2 60 1801 (MIN_DATE + 3661) MIN_DATE (by norm_num)⟩

/-! ### Helper lemmas about the pipeline -/

lemma valid_timestamp_true_elim (ft : ℚ → String) (maxD ts : ℚ) (d : String)
    (h : (valid_timestamp ft maxD ts d).1 = true) :
    valid_timestamp ft maxD ts d = (true, []) := by
  unfold valid_timestamp at h ⊢
  split at h
  · cases h
  · rename_i hn
    rw [if_neg hn]

lemma valid_timestamp_false_elim (ft : ℚ → String) (maxD ts : ℚ) (d : String)
    (h : (valid_timestamp ft maxD ts d).1 = false) :
    valid_timestamp ft maxD ts d
      = (false,
        [.log .error ("Warning: Invalid " ++ d ++ ": " ++ ft ts)]) := by
  unfold valid_timestamp at h ⊢
  split at h
  · rename_i hp
    rw [if_pos hp]
  · cases h

lemma valid_timestamp_onlyLogs (ft : ℚ → String) (maxD ts : ℚ) (d : String) :
    onlyLogs (valid_timestamp ft maxD ts d).2 := by
  unfold valid_timestamp
  split
  · intro e he
    simp only [List.mem_singleton] at he
    exact ⟨_, _, he⟩
  · intro e he
    cases he

lemma parse_time_str_onlyLogs (mk : DateTime → ℚ) (s : String) :
    onlyLogs (parse_time_str mk s).2 := by
  unfold parse_time_str
  split
  · intro e he
    simp only [List.mem_singleton] at he
    exact ⟨_, _, he⟩
  · split
    · intro e he
      simp only [List.mem_singleton] at he
      exact ⟨_, _, he⟩
    · intro e he
      cases he

lemma get_exif_time_onlyLogs (mk : DateTime → ℚ) (ex : String → Option String)
    (p : String) : onlyLogs (get_exif_time mk ex p).2 := by
  unfold get_exif_time
  split
  · exact parse_time_str_onlyLogs mk _
  · intro e he
    simp only [List.mem_singleton] at he
    exact ⟨_, _, he⟩

lemma onlyLogs_append {l1 l2 : List Effect} (h1 : onlyLogs l1) (h2 : onlyLogs l2) :
    onlyLogs (l1 ++ l2) := by
  intro e he
  rcases List.mem_append.mp he with h | h
  · exact h1 e h
  · exact h2 e h

lemma onlyLogs_nil : onlyLogs [] := fun e he => absurd he (List.not_mem_nil e)


lemma titlePhase_go_of_valid_filename (mk : DateTime → ℚ) (ft : ℚ → String)
    (maxD : ℚ) (exr : Bool) (ex : String → Option String) (p n : String) (t : ℚ)
    (hf : filenameTime mk n = .ok (some t)) (ht : t ≠ 0)
    (hv : (valid_timestamp ft maxD t "filename timestamp").1 = true) :
    titlePhase mk ft maxD exr ex p n = .ok (.go t []) := by
  unfold titlePhase
  rw [hf]
  have htr : truthy (some t) = true := by simp [truthy, ht]
  simp [htr, valid_timestamp_true_elim ft maxD t _ hv]

lemma titlePhase_done_of_invalid_filename (mk : DateTime → ℚ) (ft : ℚ → String)
    (maxD : ℚ) (exr : Bool) (ex : String → Option String) (p n : String) (t : ℚ)
    (hf : filenameTime mk n = .ok (some t)) (ht : t ≠ 0)
    (hv : (valid_timestamp ft maxD t "filename timestamp").1 = false) :
    titlePhase mk ft maxD exr ex p n
      = .ok (.done [.log .error ("Warning: Invalid filename timestamp: " ++ ft t)]) := by
  unfold titlePhase
  rw [hf]
  have htr : truthy (some t) = true := by simp [truthy, ht]
  simp [htr, valid_timestamp_false_elim ft maxD t _ hv]


lemma comparePhase_warranted (ft : ℚ → String) (maxD : ℚ) (cfg : Config)
    (mt : String → Option ℚ) (p n : String) (t m : ℚ)
    (hm : mt n = some m)
    (hv : (valid_timestamp ft maxD m "date modified").1 = true)
    (hw : correctionWarranted cfg.max_diff cfg.max_tz_diff t m = true) :
    comparePhase ft maxD cfg mt p n t
      = .ok (.print (discrepancyMsg n (time_diff t m))
          :: if cfg.no_edit then [] else [.utime p t t]) := by
  unfold comparePhase
  rw [hm]
  cases hne : cfg.no_edit <;>
    simp [valid_timestamp_true_elim ft maxD m _ hv, hw, hne]

/-- **C6.**  Filename extraction strictly precedes metadata extraction: with
a truthy, validated filename candidate the per-file result is the same for
any EXIF contents whatsoever (the metadata is never consulted), and a
warranted correction stamps the file with the filename time. -/
theorem filename_priority_over_metadata :
    ∀ (mktime : DateTime → ℚ) (ft : ℚ → String) (maxD : ℚ) (cfg : Config)
      (isf : String → Bool) (mt : String → Option ℚ)
      (ex1 ex2 : String → Option String) (image_path : String) (t : ℚ),
      filenameTime mktime (basename image_path) = .ok (some t) →
      t ≠ 0 →
      (valid_timestamp ft maxD t "filename timestamp").1 = true →
      processFile mktime ft maxD cfg isf mt ex1 image_path
        = processFile mktime ft maxD cfg isf mt ex2 image_path
      ∧ (∀ m : ℚ, isf image_path = true →
          mt (basename image_path) = some m →
          (valid_timestamp ft maxD m "date modified").1 = true →
          correctionWarranted cfg.max_diff cfg.max_tz_diff t m = true →
          cfg.no_edit = false →
          processFile mktime ft maxD cfg isf mt ex1 image_path
            = .ok [.print (discrepancyMsg (basename image_path) (time_diff t m)),
                   .utime image_path t t]) := by
  intro mk ft maxD cfg isf mt ex1 ex2 p t hf ht hv
  have h1 := titlePhase_go_of_valid_filename mk ft maxD cfg.exifread ex1 p (basename p) t hf ht hv
  have h2 := titlePhase_go_of_valid_filename mk ft maxD cfg.exifread ex2 p (basename p) t hf ht hv
  constructor
  · simp only [processFile, h1, h2]
  · intro m hisf hm hmv hw hne
    simp only [processFile, hisf, if_true, h1,
      comparePhase_warranted ft maxD cfg mt p (basename p) t m hm hmv hw, hne]
    simp

lemma onlyLogs_single (lv : LogLevel) (msg : String) :
    onlyLogs [Effect.log lv msg] := by
  intro e he
  simp only [List.mem_singleton] at he
  exact ⟨_, _, he⟩

lemma exif_branch_onlyLogs (mk : DateTime → ℚ) (ex : String → Option String)
    (p : String) (exr : Bool) (t0 : Option ℚ) :
    onlyLogs (if exr = true then get_exif_time mk ex p else (t0, [])).2 := by
  cases exr
  · exact onlyLogs_nil
  · exact get_exif_time_onlyLogs mk ex p

lemma titlePhase_onlyLogs (mk : DateTime → ℚ) (ft : ℚ → String) (maxD : ℚ)
    (exr : Bool) (ex : String → Option String) (p n : String) :
    ∀ st, titlePhase mk ft maxD exr ex p n = .ok st → onlyLogs st.effs := by
  unfold titlePhase
  intro st
  split
  · intro h; cases h
  · split
    · -- the filename candidate is truthy: effects come from its validation
      dsimp only
      split <;> intro h <;> injection h with h2 <;> subst h2 <;>
        exact valid_timestamp_onlyLogs ft maxD _ _
    · -- EXIF fallback
      split
      rename_i t0 hfile hnt hp t1 e1 hpair
      have he1 : onlyLogs e1 := by
        have hl := exif_branch_onlyLogs mk ex p exr t0
        rw [hpair] at hl
        exact hl
      split
      · -- truthy EXIF candidate: its lookup effects plus its validation effects
        dsimp only
        split <;> intro h <;> injection h with h2 <;> subst h2 <;>
          exact onlyLogs_append he1 (valid_timestamp_onlyLogs ft maxD _ _)
      · -- no candidate at all
        split <;> intro h <;> injection h with h2 <;> subst h2
        · exact he1
        · exact onlyLogs_append he1 (onlyLogs_single _ _)

/-- **C8.**  When a correction is warranted, the stdout discrepancy report is
produced identically whether `--no-edit` is set or not; the `os.utime`
mutation (both times set to the true time) is performed exactly when the
flag is unset, and no other step of the processing mutates or prints. -/
theorem simulation_flag_gates_only_mutation :
    ∀ (mktime : DateTime → ℚ) (ft : ℚ → String) (maxD : ℚ) (max_diff max_tz_diff : ℤ)
      (exifread : Bool) (isf : String → Bool) (mt : String → Option ℚ)
      (ex : String → Option String) (image_path : String) (t : ℚ) (e0 : List Effect),
      isf image_path = true →
      titlePhase mktime ft maxD exifread ex image_path (basename image_path)
        = .ok (.go t e0) →
      ∀ m : ℚ, mt (basename image_path) = some m →
      (valid_timestamp ft maxD m "date modified").1 = true →
      correctionWarranted max_diff max_tz_diff t m = true →
      processFile mktime ft maxD ⟨true, max_diff, max_tz_diff, exifread⟩ isf mt ex
          image_path
        = .ok (e0 ++ [.print (discrepancyMsg (basename image_path) (time_diff t m))])
      ∧ processFile mktime ft maxD ⟨false, max_diff, max_tz_diff, exifread⟩ isf mt ex
          image_path
        = .ok (e0 ++ [.print (discrepancyMsg (basename image_path) (time_diff t m)),
                      .utime image_path t t])
      ∧ (∀ pth a b, Effect.utime pth a b ∉ e0)
      ∧ (∀ msg, Effect.print msg ∉ e0) := by
  intro mk ft maxD md mtz exr isf mt ex p t e0 hisf htp m hm hmv hw
  have hcmp1 := comparePhase_warranted ft maxD ⟨true, md, mtz, exr⟩ mt p (basename p) t m hm hmv hw
  have hcmp2 := comparePhase_warranted ft maxD ⟨false, md, mtz, exr⟩ mt p (basename p) t m hm hmv hw
  refine ⟨?_, ?_, ?_, ?_⟩
  · simp only [processFile, hisf, if_true, htp, hcmp1]
    try simp
  · simp only [processFile, hisf, if_true, htp, hcmp2]
    try simp
  · intro pth a b hmem
    rcases titlePhase_onlyLogs mk ft maxD exr ex p (basename p) (.go t e0) htp _ hmem
      with ⟨lv, msg, hlog⟩
    cases hlog
  · intro msg hmem
    rcases titlePhase_onlyLogs mk ft maxD exr ex p (basename p) (.go t e0) htp _ hmem
      with ⟨lv, msg2, hlog⟩
    cases hlog

unseal Rat.add Rat.sub Rat.mul Rat.inv in
/-- Witness for `filename_priority_over_metadata` at a concrete run. -/
theorem filename_priority_over_metadata_witness :
    filenameTime mkFix (basename "IMG_20140310_153045.jpg") = .ok (some 800000000)
    ∧ (800000000 : ℚ) ≠ 0
    ∧ (valid_timestamp ftFix 1000000000 800000000 "filename timestamp").1 = true
    ∧ mtimeAll (basename "IMG_20140310_153045.jpg") = some 900000000
    ∧ (valid_timestamp ftFix 1000000000 900000000 "date modified").1 = true
    ∧ correctionWarranted (cfgFix false true).max_diff (cfgFix false true).max_tz_diff
        800000000 900000000 = true
    ∧ processFile mkFix ftFix 1000000000 (cfgFix false true) isfileAll mtimeAll exifSome
        "IMG_20140310_153045.jpg"
      = processFile mkFix ftFix 1000000000 (cfgFix false true) isfileAll mtimeAll exifNone
        "IMG_20140310_153045.jpg"
    ∧ processFile mkFix ftFix 1000000000 (cfgFix false true) isfileAll mtimeAll exifSome
        "IMG_20140310_153045.jpg"
      = .ok [.print (discrepancyMsg (basename "IMG_20140310_153045.jpg")
              (time_diff 800000000 900000000)),
             .utime "IMG_20140310_153045.jpg" 800000000 800000000] := by
  have h := filename_priority_over_metadata mkFix ftFix 1000000000 (cfgFix false true)
    isfileAll mtimeAll exifSome exifNone "IMG_20140310_153045.jpg" 800000000
    (by decide) (by decide) (by decide)
  exact ⟨by decide, by decide, by decide, rfl, by decide, by decide,
    h.1, h.2 900000000 rfl rfl (by decide) (by decide) rfl⟩

unseal Rat.add Rat.sub Rat.mul Rat.inv in
/-- Witness for `simulation_flag_gates_only_mutation` at a concrete run. -/
theorem simulation_flag_gates_only_mutation_witness :
    isfileAll "IMG_20140310_153045.jpg" = true
    ∧ titlePhase mkFix ftFix 1000000000 true exifNone "IMG_20140310_153045.jpg"
        (basename "IMG_20140310_153045.jpg") = .ok (.go 800000000 [])
    ∧ mtimeAll (basename "IMG_20140310_153045.jpg") = some 900000000
    ∧ (valid_timestamp ftFix 1000000000 900000000 "date modified").1 = true
    ∧ correctionWarranted 60 60 800000000 900000000 = true
    ∧ processFile mkFix ftFix 1000000000 ⟨true, 60, 60, true⟩ isfileAll mtimeAll exifNone
        "IMG_20140310_153045.jpg"
      = .ok ([] ++ [.print (discrepancyMsg (basename "IMG_20140310_153045.jpg")
              (time_diff 800000000 900000000))])
    ∧ processFile mkFix ftFix 1000000000 ⟨false, 60, 60, true⟩ isfileAll mtimeAll exifNone
        "IMG_20140310_153045.jpg"
      = .ok ([] ++ [.print (discrepancyMsg (basename "IMG_20140310_153045.jpg")
              (time_diff 800000000 900000000)),
             .utime "IMG_20140310_153045.jpg" 800000000 800000000]) := by
  have h := simulation_flag_gates_only_mutation mkFix ftFix 1000000000 60 60 true
    isfileAll mtimeAll exifNone "IMG_20140310_153045.jpg" 800000000 []
    rfl (by decide) 900000000 rfl (by decide) (by decide)
  exact ⟨rfl, by decide, rfl, by decide, by decide, h.1, h.2.1⟩

/-- **C5.**  The Filename Time Extractor applies `NAME_FORMATS` in order, and
on the first structural match produces the six captured fields verbatim,
converted to epoch seconds through the local-timezone `mktime`; with no
match it produces `None`.  One instance per `PatternRule`. -/
theorem filename_extractor_fields_verbatim :
    (∀ image_name, titleGroups image_name = firstMatch NAME_FORMATS image_name)
    ∧ (∀ mktime : DateTime → ℚ, filenameTime mktime "IMG_20140310_153045.jpg"
        = .ok (some (mktime ⟨2014, 3, 10, 15, 30, 45⟩)))
    ∧ titleGroups "IMG_20140310_153045.jpg" = some ⟨2014, 3, 10, 15, 30, 45⟩
    ∧ titleGroups "Screenshot from 2015-07-01 09:05:59.png" = some ⟨2015, 7, 1, 9, 5, 59⟩
    ∧ titleGroups "2016-12-31-235959.jpg" = some ⟨2016, 12, 31, 23, 59, 59⟩
    ∧ titleGroups "20140310_153045.mp4" = some ⟨2014, 3, 10, 15, 30, 45⟩
    ∧ titleGroups "C360_2014-03-10-15-30-45-123.jpg" = some ⟨2014, 3, 10, 15, 30, 45⟩
    ∧ titleGroups "DSC01234.JPG" = none
    ∧ (∀ mktime : DateTime → ℚ, filenameTime mktime "DSC01234.JPG" = .ok none) :=
  ⟨fun _ => rfl, fun _ => rfl, by decide, by decide, by decide, by decide, by decide,
    by decide, fun _ => rfl⟩

/-- **C2 is violated by the code.**  `IMG_20141301_123456.jpg` structurally
matches the first `PatternRule` with month field 13; `datetime.datetime`
raises `ValueError` (line 88), `main` has no handler for it, so the per-file
loop aborts and no later file of the list is processed. -/
theorem malformed_match_raises :
    titleGroups "IMG_20141301_123456.jpg" = some ⟨2014, 13, 1, 12, 34, 56⟩
    ∧ (∀ (mktime : DateTime → ℚ) (ft : ℚ → String) (maxD : ℚ) (cfg : Config)
        (mt : String → Option ℚ) (ex : String → Option String),
      processFile mktime ft maxD cfg (fun _ => true) mt ex "IMG_20141301_123456.jpg"
        = .error .valueError)
    ∧ (∀ (mktime : DateTime → ℚ) (ft : ℚ → String) (maxD : ℚ) (cfg : Config)
        (mt : String → Option ℚ) (ex : String → Option String)
        (images : List String),
      processAll mktime ft maxD cfg (fun _ => true) mt ex
        ("IMG_20141301_123456.jpg" :: images) = .error .valueError) :=
  ⟨by decide, fun _ _ _ _ _ _ => rfl, fun mk ft maxD cfg mt ex images => by
    unfold processAll
    rw [show processFile mk ft maxD cfg (fun _ => true) mt ex "IMG_20141301_123456.jpg"
        = .error .valueError from rfl]⟩

unseal Rat.add Rat.sub Rat.mul Rat.inv in
/-- **C3 is violated by the code.**  Line 112 reads the modification time of
`image_name`, the bare filename, not of `image_path`.  With path
`photos/IMG_20140310_153045.jpg`: if only the bare name resolves (a different
file in the working directory, mtime 900000000) the evaluator compares
against that stranger's time and even rewrites the supplied path from it,
although the path itself has no modification time at all; conversely, if
only the supplied path resolves — with an mtime equal to the filename time,
so no correction would be warranted — the script raises an uncaught
`OSError` instead. -/
theorem mod_time_read_from_basename :
    mtimeBaseOnly "photos/IMG_20140310_153045.jpg" = none
    ∧ processFile mkFix ftFix 1000000000 (cfgFix false true) isfileAll mtimeBaseOnly
        exifNone "photos/IMG_20140310_153045.jpg"
      = .ok [.print (discrepancyMsg "IMG_20140310_153045.jpg"
              (time_diff 800000000 900000000)),
             .utime "photos/IMG_20140310_153045.jpg" 800000000 800000000]
    ∧ mtimePathOnly "photos/IMG_20140310_153045.jpg" = some (mkFix ⟨2014, 3, 10, 15, 30, 45⟩)
    ∧ correctionWarranted 60 60 (mkFix ⟨2014, 3, 10, 15, 30, 45⟩) 800000000 = false
    ∧ processFile mkFix ftFix 1000000000 (cfgFix false true) isfileAll mtimePathOnly
        exifNone "photos/IMG_20140310_153045.jpg"
      = .error .osError := by
  refine ⟨by decide, by decide, by decide, by decide, by decide⟩

/-- **C7.**  A metadata capture-time value whose length is not 19, or whose
components fail validation, makes `parse_time_str` return `None` with exactly
one info-level log line — never an exception or an error-level line — and an
absent tag is treated the same way by `get_exif_time`. -/
theorem malformed_metadata_info_only :
    (∀ (mktime : DateTime → ℚ) (time_str : String),
      time_str.length ≠ 19 ∨ exifFields time_str = .error () →
      ∃ msg, parse_time_str mktime time_str = (none, [.log .info msg]))
    ∧ (∀ (mktime : DateTime → ℚ) (ex : String → Option String) (p : String),
      ex p = none →
      ∃ msg, get_exif_time mktime ex p = (none, [.log .info msg])) := by
  constructor
  · intro mk s h
    unfold parse_time_str
    by_cases hl : s.length = 19
    · rcases h with h | h
      · exact absurd hl h
      · rw [if_neg (not_not_intro hl), h]
        exact ⟨_, rfl⟩
    · rw [if_pos hl]
      exact ⟨_, rfl⟩
  · intro mk ex p h
    unfold get_exif_time
    rw [h]
    exact ⟨_, rfl⟩

/-- Witness for `malformed_metadata_info_only`: month 13 in an otherwise
well-formed 19-character value, and an absent tag. -/
theorem malformed_metadata_info_only_witness :
    (("2014:13:01 00:00:00" : String).length ≠ 19
      ∨ exifFields "2014:13:01 00:00:00" = .error ())
    ∧ (∃ msg, parse_time_str mkFix "2014:13:01 00:00:00" = (none, [.log .info msg]))
    ∧ exifNone "x.jpg" = none
    ∧ (∃ msg, get_exif_time mkFix exifNone "x.jpg" = (none, [.log .info msg])) :=
  ⟨Or.inr (by decide), malformed_metadata_info_only.1 mkFix _ (Or.inr (by decide)),
   rfl, malformed_metadata_info_only.2 mkFix exifNone "x.jpg" rfl⟩

lemma valid_timestamp_iff (ft : ℚ → String) (maxD ts : ℚ) (d : String) :
    (valid_timestamp ft maxD ts d).1 = true ↔ (MIN_DATE ≤ ts ∧ ts ≤ maxD) := by
  unfold valid_timestamp
  by_cases h : ts < MIN_DATE ∨ ts > maxD
  · rw [if_pos h]
    constructor
    · intro hc
      exact absurd hc Bool.false_ne_true
    · rintro ⟨h1, h2⟩
      rcases h with h | h
      · exact absurd h1 (not_le.mpr h)
      · exact absurd h2 (not_le.mpr h)
  · rw [if_neg h]
    push_neg at h
    exact iff_of_true rfl h

/-- **C4.**  `valid_timestamp` passes exactly the window
`MIN_DATE ≤ t ≤ MAX_DATE`; on failure it emits one error-level line naming
the source; the bound equal to `MIN_DATE` passes, one second below fails,
run-start `now` passes and `now` plus eight days fails, all against the
single `MAX_DATE = now + 7 days` fixed at run start (`runMain`); an invalid
candidate makes the file be skipped with only that diagnostic. -/
theorem plausibility_window :
    (∀ (ft : ℚ → String) (maxD ts : ℚ) (d : String),
      (valid_timestamp ft maxD ts d).1 = true ↔ (MIN_DATE ≤ ts ∧ ts ≤ maxD))
    ∧ (∀ (ft : ℚ → String) (maxD ts : ℚ) (d : String),
      (valid_timestamp ft maxD ts d).1 = false →
      (valid_timestamp ft maxD ts d).2
        = [.log .error ("Warning: Invalid " ++ d ++ ": " ++ ft ts)])
    ∧ (∀ (ft : ℚ → String) (now : ℚ) (d : String), MIN_DATE ≤ now →
      (valid_timestamp ft (now + 60 * 60 * 24 * 7) MIN_DATE d).1 = true
      ∧ (valid_timestamp ft (now + 60 * 60 * 24 * 7) (MIN_DATE - 1) d).1 = false
      ∧ (valid_timestamp ft (now + 60 * 60 * 24 * 7) now d).1 = true
      ∧ (valid_timestamp ft (now + 60 * 60 * 24 * 7) (now + 60 * 60 * 24 * 8) d).1
          = false)
    ∧ (∀ (mktime : DateTime → ℚ) (ft : ℚ → String) (cfg : Config)
        (isf : String → Bool) (mt : String → Option ℚ) (ex : String → Option String)
        (now : ℚ) (images : List String),
      runMain mktime ft cfg isf mt ex now images
        = processAll mktime ft (now + 60 * 60 * 24 * 7) cfg isf mt ex images)
    ∧ (∀ (mktime : DateTime → ℚ) (ft : ℚ → String) (maxD : ℚ) (cfg : Config)
        (isf : String → Bool) (mt : String → Option ℚ) (ex : String → Option String)
        (image_path : String) (t : ℚ),
      isf image_path = true →
      filenameTime mktime (basename image_path) = .ok (some t) →
      t ≠ 0 →
      (valid_timestamp ft maxD t "filename timestamp").1 = false →
      processFile mktime ft maxD cfg isf mt ex image_path
        = .ok (valid_timestamp ft maxD t "filename timestamp").2) := by
  refine ⟨valid_timestamp_iff, ?_, ?_, ?_, ?_⟩
  · intro ft maxD ts d h
    rw [valid_timestamp_false_elim ft maxD ts d h]
  · intro ft now d hnow
    refine ⟨(valid_timestamp_iff ft _ _ d).mpr ⟨le_refl _, by linarith⟩, ?_,
      (valid_timestamp_iff ft _ _ d).mpr ⟨hnow, by linarith⟩, ?_⟩
    · have hne : ¬((valid_timestamp ft (now + 60 * 60 * 24 * 7) (MIN_DATE - 1) d).1 = true) := by
        intro hc
        have := ((valid_timestamp_iff ft _ _ d).mp hc).1
        linarith
      cases hb : (valid_timestamp ft (now + 60 * 60 * 24 * 7) (MIN_DATE - 1) d).1
      · rfl
      · exact absurd hb hne
    · have hne : ¬((valid_timestamp ft (now + 60 * 60 * 24 * 7) (now + 60 * 60 * 24 * 8) d).1 = true) := by
        intro hc
        have := ((valid_timestamp_iff ft _ _ d).mp hc).2
        linarith
      cases hb : (valid_timestamp ft (now + 60 * 60 * 24 * 7) (now + 60 * 60 * 24 * 8) d).1
      · rfl
      · exact absurd hb hne
  · intro mk ft cfg isf mt ex now images
    rfl
  · intro mk ft maxD cfg isf mt ex p t hisf hf ht hv
    simp only [processFile, hisf, if_true,
      titlePhase_done_of_invalid_filename mk ft maxD cfg.exifread ex p (basename p) t hf ht hv,
      valid_timestamp_false_elim ft maxD t _ hv]
    rfl

unseal Rat.add Rat.sub Rat.mul Rat.inv in
/-- Witness for `plausibility_window` at run-start clock 1000000000 and a
filename candidate of 5 epoch seconds. -/
theorem plausibility_window_witness :
    MIN_DATE ≤ (1000000000 : ℚ)
    ∧ ((valid_timestamp ftFix ((1000000000 : ℚ) + 60 * 60 * 24 * 7) MIN_DATE "x").1
        = true
      ∧ (valid_timestamp ftFix ((1000000000 : ℚ) + 60 * 60 * 24 * 7) (MIN_DATE - 1)
          "x").1 = false
      ∧ (valid_timestamp ftFix ((1000000000 : ℚ) + 60 * 60 * 24 * 7) 1000000000 "x").1
        = true
      ∧ (valid_timestamp ftFix ((1000000000 : ℚ) + 60 * 60 * 24 * 7)
          ((1000000000 : ℚ) + 60 * 60 * 24 * 8) "x").1 = false)
    ∧ isfileAll "IMG_20140310_153045.jpg" = true
    ∧ filenameTime mkBad (basename "IMG_20140310_153045.jpg") = .ok (some 5)
    ∧ (5 : ℚ) ≠ 0
    ∧ (valid_timestamp ftFix 1000000000 5 "filename timestamp").1 = false
    ∧ processFile mkBad ftFix 1000000000 (cfgFix false true) isfileAll mtimeAll exifNone
        "IMG_20140310_153045.jpg"
      = .ok (valid_timestamp ftFix 1000000000 5 "filename timestamp").2 := by
  refine ⟨by decide, plausibility_window.2.2.1 ftFix 1000000000 "x" (by decide),
    rfl, by decide, by decide, by decide,
    plausibility_window.2.2.2.2 mkBad ftFix 1000000000 (cfgFix false true) isfileAll
      mtimeAll exifNone "IMG_20140310_153045.jpg" 5 rfl (by decide) (by decide)
      (by decide)⟩

/-- **C9 as stated is false.**  A file named `00001.MTS` (on the ignore list,
matching no `PatternRule`, with no EXIF tag) still produces a diagnostic:
`get_exif_time` logs its info-level missing-tag line (line 142), so the
processing is not diagnostic-free. -/
theorem ignored_name_not_diagnostic_free :
    titleGroups "00001.MTS" = none
    ∧ ignoreRecognized "00001.MTS" = true
    ∧ (get_exif_time mkFix exifNone "00001.MTS").1 = none
    ∧ processFile mkFix ftFix 1000000000 (cfgFix false true) isfileAll mtimeAll exifNone
        "00001.MTS"
      = .ok [.log .info
          "Warning: did not find EXIF tag \"EXIF DateTimeOriginal\" in file \"00001.MTS\""]
    ∧ processFile mkFix ftFix 1000000000 (cfgFix false true) isfileAll mtimeAll exifNone
        "00001.MTS" ≠ .ok [] :=
  ⟨by decide, by decide, rfl, by decide, by decide⟩

lemma parse_time_str_none_info (mk : DateTime → ℚ) (v : String)
    (h : (parse_time_str mk v).1 = none) :
    ∃ msg, (parse_time_str mk v).2 = [.log .info msg] := by
  unfold parse_time_str at h ⊢
  split
  · exact ⟨_, rfl⟩
  · rename_i hc
    rw [if_neg hc] at h
    cases hef : exifFields v with
    | error u => exact ⟨_, rfl⟩
    | ok dt => rw [hef] at h; simp at h

lemma get_exif_time_none_info (mk : DateTime → ℚ) (ex : String → Option String)
    (p : String) (h : (get_exif_time mk ex p).1 = none) :
    ∃ msg, (get_exif_time mk ex p).2 = [.log .info msg] := by
  unfold get_exif_time at h ⊢
  cases hex : ex p with
  | none => exact ⟨_, rfl⟩
  | some v =>
    rw [hex] at h
    exact parse_time_str_none_info mk v h

lemma titlePhase_no_candidate (mk : DateTime → ℚ) (ft : ℚ → String) (maxD : ℚ)
    (exr : Bool) (ex : String → Option String) (p n : String)
    (hf : filenameTime mk n = .ok none)
    (hex : exr = true → (get_exif_time mk ex p).1 = none) :
    ∃ e1, titlePhase mk ft maxD exr ex p n
        = .ok (.done (e1 ++ (if ignoreRecognized n then [] else
            [.log .error ("Unrecognized name format & no EXIF: " ++ n)])))
      ∧ ∀ e ∈ e1, ∃ msg, e = Effect.log .info msg := by
  unfold titlePhase
  rw [hf]
  cases hexr : exr with
  | false =>
    refine ⟨[], ?_, by intro e he; cases he⟩
    cases hig : ignoreRecognized n <;> simp [hig, truthy]
  | true =>
    obtain ⟨msg, hmsg⟩ := get_exif_time_none_info mk ex p (hex hexr)
    have hpair : get_exif_time mk ex p = (none, [Effect.log .info msg]) := by
      rw [← hex hexr, ← hmsg]
    refine ⟨[.log .info msg], ?_, ?_⟩
    · simp only [if_true, hpair]
      cases hig : ignoreRecognized n <;> simp [hig, truthy]
    · intro e he
      simp only [List.mem_singleton] at he
      exact ⟨msg, he⟩

/-- **C9, amended.**  With no candidate from either source: an ignore-listed
name is skipped with no error-level diagnostic (only the informational
metadata-lookup lines may appear), and a name not on the ignore list gets
exactly the error-level unrecognized-name diagnostic; in both cases there is
no stdout report and no `os.utime` call. -/
theorem no_candidate_paths :
    ∀ (mktime : DateTime → ℚ) (ft : ℚ → String) (maxD : ℚ) (cfg : Config)
      (isf : String → Bool) (mt : String → Option ℚ) (ex : String → Option String)
      (image_path : String),
      isf image_path = true →
      filenameTime mktime (basename image_path) = .ok none →
      (cfg.exifread = true → (get_exif_time mktime ex image_path).1 = none) →
      (ignoreRecognized (basename image_path) = true →
        ∃ effs, processFile mktime ft maxD cfg isf mt ex image_path = .ok effs
          ∧ ∀ e ∈ effs, ∃ msg, e = Effect.log .info msg)
      ∧ (ignoreRecognized (basename image_path) = false →
        ∃ effs, processFile mktime ft maxD cfg isf mt ex image_path
            = .ok (effs ++ [.log .error
                ("Unrecognized name format & no EXIF: " ++ basename image_path)])
          ∧ ∀ e ∈ effs, ∃ msg, e = Effect.log .info msg) := by
  intro mk ft maxD cfg isf mt ex p hisf hf hex
  obtain ⟨e1, htp, hinfo⟩ :=
    titlePhase_no_candidate mk ft maxD cfg.exifread ex p (basename p) hf hex
  constructor
  · intro hig
    refine ⟨e1, ?_, hinfo⟩
    simp only [processFile, hisf, if_true, htp, hig]
    simp
  · intro hig
    refine ⟨e1, ?_, hinfo⟩
    simp only [processFile, hisf, if_true, htp, hig]
    simp

/-- Witness for `no_candidate_paths`: the ignore-listed `00001.MTS` with
`exifread` present and no EXIF tag. -/
theorem no_candidate_paths_witness :
    isfileAll "00001.MTS" = true
    ∧ filenameTime mkFix (basename "00001.MTS") = .ok none
    ∧ ((cfgFix false true).exifread = true →
        (get_exif_time mkFix exifNone "00001.MTS").1 = none)
    ∧ ignoreRecognized (basename "00001.MTS") = true
    ∧ ∃ effs, processFile mkFix ftFix 1000000000 (cfgFix false true) isfileAll mtimeAll
          exifNone "00001.MTS" = .ok effs
        ∧ ∀ e ∈ effs, ∃ msg, e = Effect.log .info msg := by
  have h := no_candidate_paths mkFix ftFix 1000000000 (cfgFix false true) isfileAll
    mtimeAll exifNone "00001.MTS" rfl (by decide) (fun _ => rfl)
  exact ⟨rfl, by decide, fun _ => rfl, by decide, h.1 (by decide)⟩
